import Mathlib

/-!
Verification of the data-analysis agent (router + tools) from
`Data_Analysis_agent.ipynb`.

The Python notebook defines three tools (`lookup_sales_data`,
`analyze_sales_data`, `generate_visualization`), a registry dictionary
`tool_implementations`, a dispatcher `handle_tool_calls`, and the router
loop `run_agent`.  This file gives a shallow embedding of that code:

  * External effects (the OpenAI chat calls, reading the parquet file,
    running a DuckDB query) are modelled by a `ToolEnv` record of
    functions; each field is the value or error that the corresponding
    external call produces.  A Python exception is modelled by
    `Except PyError`; code that lets an exception propagate is a
    function into `Except PyError A`, code that catches everything
    (the `try`/`except` body of `lookup_sales_data`) is total.
  * `json.loads` on the raw argument string of a tool call is modelled
    on the parse result: `RawArgs.malformed` is a payload on which
    `json.loads` raises `JSONDecodeError`, `RawArgs.obj` is a JSON
    object (all declared tool parameters are strings, so fields are
    string-valued).  Calling `function(**kwargs)` raises `TypeError`
    when the keyword set does not match the parameter list, which
    `kwargsExactly1` / `kwargsExactly2` reproduce.
  * The reasoning engine is modelled by a finite script of assistant
    responses consumed in order; running out of script means the
    unbounded `while True` loop is still running (`RunResult.outOfScript`),
    which plays the role of fuel.  The count returned with the result is
    the number of engine calls made.
-/

namespace DataAgent

/-- A Python exception, as far as the dispatcher can observe it. -/
inductive PyError where
  | keyError (name : String)
  | jsonDecodeError
  | typeError (msg : String)
  | apiError (msg : String)
  | attributeError
  deriving DecidableEq, Repr

/-- `str(e)` for the modelled exceptions, used by the string
`f"Error accessing data: {str(e)}"` in `lookup_sales_data`. -/
def pyErrMsg : PyError → String
  | .keyError name => name
  | .jsonDecodeError => "Expecting value"
  | .typeError msg => msg
  | .apiError msg => msg
  | .attributeError => "attribute error"

/-- The pydantic response-format class of tool 3, step 1. -/
structure VisualizationConfig where
  chart_type : String
  x_axis : String
  y_axis : String
  title : String
  deriving DecidableEq, Repr

/-- The value bound to `response.choices[0].message.content` by the
structured-output call in `extract_chart_config`.  `cfgVal` is a value
that exposes the `chart_type` / `x_axis` / `y_axis` / `title`
attributes; `strVal` (the raw JSON text) and `noneVal` (a null content)
do not, so attribute access on them raises. -/
inductive ContentVal where
  | strVal (s : String)
  | noneVal
  | cfgVal (c : VisualizationConfig)
  deriving DecidableEq, Repr

/-- Attribute access `content.chart_type` etc.: succeeds only on a
value that has those attributes, otherwise raises `AttributeError`. -/
def getChartAttrs : ContentVal → Except PyError VisualizationConfig
  | .cfgVal c => .ok c
  | _ => .error .attributeError

/-- The dict returned by `extract_chart_config`. -/
structure ChartConfig where
  chart_type : String
  x_axis : String
  y_axis : String
  title : String
  data : String
  deriving DecidableEq, Repr

/-- Environment of external effects: each field models one external
call made by the tools, as the value or exception it produces.
`readParquet` models `pd.read_parquet` + `CREATE TABLE` and yields the
textual form of `df.columns`; the `...LLM` fields yield the message
content of the corresponding chat-completion call (`Option` because
content can be null). -/
structure ToolEnv where
  readParquet : Except PyError String
  sqlLLM : String → Except PyError (Option String)
  runQuery : String → Except PyError String
  analyzeLLM : String → Except PyError (Option String)
  chartLLM : String → Except PyError ContentVal
  chartCodeLLM : String → Except PyError (Option String)

/-- `SQL_GENERATION_PROMPT.format(prompt=..., columns=..., table_name=...)`. -/
def SQL_GENERATION_PROMPT (prompt columns table_name : String) : String :=
  "\nGenerate an SQL query based on a prompt. Do not reply with anything besides the SQL query.\nThe prompt is: "
    ++ prompt ++ "\n\nThe available columns are: " ++ columns
    ++ "\nThe table name is: " ++ table_name ++ "\n"

/-- `DATA_ANALYSIS_PROMPT.format(data=..., prompt=...)`. -/
def DATA_ANALYSIS_PROMPT (data prompt : String) : String :=
  "\nAnalyze the following data: " ++ data
    ++ "\nYour job is to answer the following question: " ++ prompt ++ "\n"

/-- `CHART_CONFIGURATION_PROMPT.format(data=..., visualization_goal=...)`. -/
def CHART_CONFIGURATION_PROMPT (data visualization_goal : String) : String :=
  "\nGenerate a chart configuration based on this data: " ++ data
    ++ "\nThe goal is to show: " ++ visualization_goal ++ "\n"

/-- Rendering of the config dict interpolated into `CREATE_CHART_PROMPT`. -/
def chartConfigStr (c : ChartConfig) : String :=
  "\x7bchart_type: " ++ c.chart_type ++ ", x_axis: " ++ c.x_axis
    ++ ", y_axis: " ++ c.y_axis ++ ", title: " ++ c.title
    ++ ", data: " ++ c.data ++ "\x7d"

/-- `CREATE_CHART_PROMPT.format(config=...)`. -/
def CREATE_CHART_PROMPT (config : String) : String :=
  "\nWrite python code to create a chart based on the following configuration.\nOnly return the code, no other text.\nconfig: "
    ++ config ++ "\n"

/-- The `SYSTEM_PROMPT` string of the notebook. -/
def SYSTEM_PROMPT : String :=
  "\nYou are a helpful assistant that can answer questions about the Store Sales Price Elasticity Promotions dataset.\n"

/-- `generate_sql_query`: one chat-completion call whose content (possibly
null) is returned unchanged. -/
def generate_sql_query (env : ToolEnv) (prompt columns table_name : String) :
    Except PyError (Option String) :=
  env.sqlLLM (SQL_GENERATION_PROMPT prompt columns table_name)

/-- The cleaning applied to the generated SQL in `lookup_sales_data`:
`strip()`, then remove the markdown fences. -/
def cleanSql (s : String) : String :=
  ((s.trim).replace "```sql" "").replace "```" ""

/-- The body of the `try` block of `lookup_sales_data` (tool 1): read the
parquet file and create the table, generate the SQL via the LLM
(`None.strip()` raises `AttributeError` when the content is null), clean
it, and execute it.  Any step may raise. -/
def lookupBody (env : ToolEnv) (prompt : String) : Except PyError String :=
  match env.readParquet with
  | .error e => .error e
  | .ok columns =>
    match generate_sql_query env prompt columns "sales" with
    | .error e => .error e
    | .ok none => .error .attributeError
    | .ok (some sql) => env.runQuery (cleanSql sql)

/-- `lookup_sales_data`: the whole body is wrapped in
`try ... except Exception as e: return f"Error accessing data: {str(e)}"`,
so it always returns a string and never raises. -/
def lookup_sales_data (env : ToolEnv) (prompt : String) : String :=
  match lookupBody env prompt with
  | .ok res => res
  | .error e => "Error accessing data: " ++ pyErrMsg e

/-- `analyze_sales_data` (tool 2): one chat-completion call, no
`try`/`except` — an exception in the call propagates.  A null or empty
content (falsy in Python) is replaced by the fixed fallback string. -/
def analyze_sales_data (env : ToolEnv) (prompt data : String) :
    Except PyError String :=
  match env.analyzeLLM (DATA_ANALYSIS_PROMPT data prompt) with
  | .error e => .error e
  | .ok (some a) => .ok (if a = "" then "No analysis could be generated" else a)
  | .ok none => .ok "No analysis could be generated"

/-- `extract_chart_config` (tool 3, step 1): the structured-output call
itself is outside the `try` block, so an exception there propagates; the
`try` covers only the attribute accesses on the returned content, and on
any failure there the fixed default configuration is returned. -/
def extract_chart_config (env : ToolEnv) (data visualization_goal : String) :
    Except PyError ChartConfig :=
  match env.chartLLM (CHART_CONFIGURATION_PROMPT data visualization_goal) with
  | .error e => .error e
  | .ok content =>
    match getChartAttrs content with
    | .ok c =>
        .ok { chart_type := c.chart_type, x_axis := c.x_axis,
              y_axis := c.y_axis, title := c.title, data := data }
    | .error _ =>
        .ok { chart_type := "line", x_axis := "date", y_axis := "value",
              title := visualization_goal, data := data }

/-- `create_chart` (tool 3, step 2): one chat-completion call, then the
markdown fences are removed and the code stripped.  `None.replace`
raises when the content is null; no `try`/`except`. -/
def create_chart (env : ToolEnv) (config : ChartConfig) :
    Except PyError String :=
  match env.chartCodeLLM (CREATE_CHART_PROMPT (chartConfigStr config)) with
  | .error e => .error e
  | .ok none => .error .attributeError
  | .ok (some code) => .ok (((code.replace "```python" "").replace "```" "").trim)

/-- `generate_visualization` (tool 3): config extraction then code
generation; exceptions from either step propagate. -/
def generate_visualization (env : ToolEnv) (data visualization_goal : String) :
    Except PyError String :=
  match extract_chart_config env data visualization_goal with
  | .error e => .error e
  | .ok config => create_chart env config

/-- The three registered tools. -/
inductive ToolName where
  | lookup
  | analyze
  | visualize
  deriving DecidableEq, Repr

/-- The `tool_implementations` dictionary, as its (key, value) pairs. -/
def tool_implementations : List (String × ToolName) :=
  [("lookup_sales_data", ToolName.lookup),
   ("analyze_sales_data", ToolName.analyze),
   ("generate_visualization", ToolName.visualize)]

/-- `tool_implementations[name]`: a dict subscript, raising `KeyError`
when the name is absent. -/
def lookupTool (name : String) : Except PyError ToolName :=
  match tool_implementations.find? (fun p => p.1 = name) with
  | some p => .ok p.2
  | none => .error (.keyError name)

/-- The raw `tool_call.function.arguments` JSON string, modelled on its
parse result: either not valid JSON at all, or a JSON object with
string-valued fields (every declared parameter of the three tools is a
string). -/
inductive RawArgs where
  | malformed (s : String)
  | obj (fields : List (String × String))
  deriving DecidableEq, Repr

/-- `json.loads(tool_call.function.arguments)`: raises
`JSONDecodeError` on a malformed payload. -/
def json_loads : RawArgs → Except PyError (List (String × String))
  | .malformed _ => .error .jsonDecodeError
  | .obj fields => .ok fields

/-- Dictionary access on the parsed keyword arguments. -/
def getArg (kwargs : List (String × String)) (k : String) : Option String :=
  (kwargs.find? (fun p => p.1 = k)).map Prod.snd

/-- Message carried by the modelled `TypeError`. -/
def kwErrMsg : String := "unexpected or missing keyword arguments"

/-- `f(**kwargs)` for a one-parameter tool: Python raises `TypeError`
unless the keyword set is exactly the parameter set. -/
def kwargsExactly1 (kwargs : List (String × String)) (k : String) :
    Except PyError String :=
  if kwargs.length = 1 then
    match getArg kwargs k with
    | some v => .ok v
    | none => .error (.typeError kwErrMsg)
  else .error (.typeError kwErrMsg)

/-- `f(**kwargs)` for a two-parameter tool. -/
def kwargsExactly2 (kwargs : List (String × String)) (k1 k2 : String) :
    Except PyError (String × String) :=
  if kwargs.length = 2 then
    match getArg kwargs k1, getArg kwargs k2 with
    | some v1, some v2 => .ok (v1, v2)
    | _, _ => .error (.typeError kwErrMsg)
  else .error (.typeError kwErrMsg)

/-- `function(**function_args)`: bind the keyword arguments to the
selected implementation and run it.  Exceptions raised inside the tool
body propagate (only `lookup_sales_data` catches its own). -/
def callTool (env : ToolEnv) (t : ToolName) (kwargs : List (String × String)) :
    Except PyError String :=
  match t with
  | .lookup =>
    match kwargsExactly1 kwargs "prompt" with
    | .error e => .error e
    | .ok p => .ok (lookup_sales_data env p)
  | .analyze =>
    match kwargsExactly2 kwargs "data" "prompt" with
    | .error e => .error e
    | .ok pd => analyze_sales_data env pd.2 pd.1
  | .visualize =>
    match kwargsExactly2 kwargs "data" "visualization_goal" with
    | .error e => .error e
    | .ok dg => generate_visualization env dg.1 dg.2

/-- One `tool_call` object from the model response. -/
structure ToolCallObj where
  id : String
  name : String
  arguments : RawArgs
  deriving DecidableEq, Repr

/-- One assistant response message object; `tool_calls` is the possibly
empty list of requested calls (a null `tool_calls` and an empty list are
both falsy under `if tool_calls:` and are modelled as `[]`). -/
structure AssistantMsg where
  content : Option String
  tool_calls : List ToolCallObj
  deriving DecidableEq, Repr

/-- A conversation entry: either one of the dict messages the code
builds (system, user, tool) or the assistant message object appended
verbatim from the response. -/
inductive Msg where
  | dict (role : String) (content : String) (tool_call_id : Option String)
  | assistant (m : AssistantMsg)
  deriving DecidableEq, Repr

/-- The `tool_call_id` of a dict message, if any. -/
def msgTag : Msg → Option String
  | .dict _ _ t => t
  | .assistant _ => none

/-- The role of a message. -/
def msgRole : Msg → String
  | .dict r _ _ => r
  | .assistant _ => "assistant"

/-- The body of one iteration of the `for tool_call in tool_calls` loop
in `handle_tool_calls`: dict lookup, `json.loads`, call, and the dict
appended on success. -/
def dispatch_one (env : ToolEnv) (tc : ToolCallObj) : Except PyError Msg :=
  match lookupTool tc.name with
  | .error e => .error e
  | .ok impl =>
    match json_loads tc.arguments with
    | .error e => .error e
    | .ok kwargs =>
      match callTool env impl kwargs with
      | .error e => .error e
      | .ok result => .ok (Msg.dict "tool" result (some tc.id))

/-- `handle_tool_calls(tool_calls, messages)`: appends one tool-result
dict per call, in order; any exception aborts the whole dispatch. -/
def handle_tool_calls (env : ToolEnv) :
    List ToolCallObj → List Msg → Except PyError (List Msg)
  | [], messages => .ok messages
  | tc :: rest, messages =>
    match dispatch_one env tc with
    | .error e => .error e
    | .ok m => handle_tool_calls env rest (messages ++ [m])

/-- The predicate of the system-prompt check in `run_agent`:
`isinstance(message, dict) and message.get("role") == "system"`. -/
def isSystem : Msg → Bool
  | .dict r _ _ => r = "system"
  | .assistant _ => false

/-- `any(... for message in messages)` in the system-prompt check. -/
def hasSystemMsg (messages : List Msg) : Bool :=
  messages.any isSystem

/-- Number of system messages in the conversation. -/
def countSystemMsgs (messages : List Msg) : Nat :=
  (messages.filter isSystem).length

/-- The system-prompt step of `run_agent`: append the system prompt
only when no system message is present. -/
def ensure_system (messages : List Msg) : List Msg :=
  if hasSystemMsg messages then messages
  else messages ++ [Msg.dict "system" SYSTEM_PROMPT none]

/-- The argument of `run_agent`: a plain string or a message list. -/
inductive AgentInput where
  | query (s : String)
  | msgs (ms : List Msg)

/-- The `isinstance(messages, str)` wrapping at the top of `run_agent`. -/
def wrapInput : AgentInput → List Msg
  | .query s => [Msg.dict "user" s none]
  | .msgs ms => ms

/-- Outcome of the router loop on a finite engine script: either the
loop returned (`answer` with the content of the final response), or the
script ran out while the unbounded `while True` loop was still going
(`outOfScript`); the code itself has no other way to stop. -/
inductive RunResult where
  | answer (content : Option String)
  | outOfScript
  deriving DecidableEq, Repr

/-- The `while True` loop of `run_agent`, with the engine modelled as a
script of responses consumed one per iteration.  Returns the outcome,
the final message list, and the number of engine calls made. -/
def run_agent_loop (env : ToolEnv) :
    List AssistantMsg → List Msg → Except PyError (RunResult × List Msg × Nat)
  | [], messages => .ok (.outOfScript, messages, 0)
  | resp :: rest, messages =>
    if resp.tool_calls.isEmpty then
      .ok (.answer resp.content, messages ++ [Msg.assistant resp], 1)
    else
      match handle_tool_calls env resp.tool_calls (messages ++ [Msg.assistant resp]) with
      | .error e => .error e
      | .ok messages3 =>
        match run_agent_loop env rest messages3 with
        | .error e => .error e
        | .ok (r, ms, n) => .ok (r, ms, n + 1)

/-- `run_agent(messages)`: wrap a string input as a single user message,
ensure the system prompt, and enter the loop. -/
def run_agent (env : ToolEnv) (script : List AssistantMsg) (input : AgentInput) :
    Except PyError (RunResult × List Msg × Nat) :=
  run_agent_loop env script (ensure_system (wrapInput input))

/-- A benign environment: every external call succeeds. -/
def envOk : ToolEnv where
  readParquet := .ok "Index([Store_Number, SKU_Coded, Sold_Date, Total_Sale_Value])"
  sqlLLM := fun _ => .ok (some "SELECT 1")
  runQuery := fun _ => .ok "rows for store 1320"
  analyzeLLM := fun _ => .ok (some "analysis text")
  chartLLM := fun _ =>
    .ok (.cfgVal { chart_type := "bar", x_axis := "sku",
                   y_axis := "sales", title := "sales by sku" })
  chartCodeLLM := fun _ => .ok (some "import matplotlib")

/-- Environment where the analysis chat call raises. -/
def envAnalyzeFails : ToolEnv :=
  { envOk with analyzeLLM := fun _ => .error (.apiError "boom") }

/-- Environment where the DuckDB query raises inside `lookup_sales_data`. -/
def envLookupFails : ToolEnv :=
  { envOk with runQuery := fun _ => .error (.apiError "Binder Error") }

/-- A well-formed lookup tool call. -/
def lookupTc : ToolCallObj :=
  { id := "call_1", name := "lookup_sales_data",
    arguments := .obj [("prompt", "show sales")] }

/-- A response that always requests one (valid) capability. -/
def alwaysCallResp : AssistantMsg :=
  { content := none, tool_calls := [lookupTc] }

/-- A well-formed analysis tool call. -/
def analyzeTc : ToolCallObj :=
  { id := "call_2", name := "analyze_sales_data",
    arguments := .obj [("data", "rows"), ("prompt", "trends")] }

/-- Environment whose structured-output call yields a content value
without the chart attributes (the raw JSON text). -/
def envChartMalformed : ToolEnv :=
  { envOk with chartLLM := fun _ => .ok (.strVal "not a config") }

/-- Claim C2 (counterexample): for a tool call whose name is not in
`tool_implementations`, the dict lookup raises `KeyError`; the exception
propagates out of `handle_tool_calls` and `run_agent` — no
UnknownCapability result message is appended and the loop does not
continue, contrary to the claim. -/
theorem C2_counterexample :
    run_agent envOk
        [{ content := none,
           tool_calls := [{ id := "c1", name := "list_tables",
                            arguments := RawArgs.obj [] }] }]
        (AgentInput.query "what tables exist?")
      = .error (.keyError "list_tables") := rfl

/-- Claim C2 (amended): a capability request whose name is absent from
the registry makes the dispatch fail with a propagating `KeyError`
carrying that name; nothing is appended to the conversation. -/
theorem C2_amended (env : ToolEnv) (msgs : List Msg) (id name : String)
    (args : RawArgs) (rest : List ToolCallObj)
    (h : tool_implementations.find? (fun p => p.1 = name) = none) :
    handle_tool_calls env ({ id := id, name := name, arguments := args } :: rest) msgs
      = .error (.keyError name) := by
  have hd : dispatch_one env { id := id, name := name, arguments := args }
      = .error (.keyError name) := by
    unfold dispatch_one lookupTool
    rw [h]
  rw [show handle_tool_calls env
        ({ id := id, name := name, arguments := args } :: rest) msgs
      = (match dispatch_one env { id := id, name := name, arguments := args } with
         | .error e => .error e
         | .ok m => handle_tool_calls env rest (msgs ++ [m])) from rfl, hd]

/-- Claim C2 (witness for the amended theorem) at a concrete unknown
name. -/
theorem C2_witness :
    handle_tool_calls envOk
        [{ id := "c9", name := "list_tables", arguments := RawArgs.obj [] }] []
      = .error (.keyError "list_tables") :=
  C2_amended envOk [] "c9" "list_tables" (RawArgs.obj []) [] rfl

/-- Claim C3 (counterexample): a tool call whose raw argument payload is
not valid JSON makes `json.loads` raise; the exception propagates out of
`run_agent` instead of being surfaced as an InvalidArguments result. -/
theorem C3_counterexample :
    run_agent envOk
        [{ content := none,
           tool_calls := [{ id := "c1", name := "lookup_sales_data",
                            arguments := RawArgs.malformed "show me stores" }] }]
        (AgentInput.query "sales for store 1320")
      = .error .jsonDecodeError := rfl

/-- Claim C3 (amended): the dispatcher performs no schema validation and
produces no InvalidArguments result: a malformed payload raises
`JSONDecodeError` and a payload missing the required field raises
`TypeError`, and both exceptions propagate out of `handle_tool_calls`,
aborting the interaction. -/
theorem C3_amended :
    (∀ (env : ToolEnv) (msgs : List Msg) (id s : String) (rest : List ToolCallObj),
        handle_tool_calls env
            ({ id := id, name := "lookup_sales_data",
               arguments := RawArgs.malformed s } :: rest) msgs
          = .error .jsonDecodeError) ∧
    (∀ (env : ToolEnv) (msgs : List Msg) (id : String) (rest : List ToolCallObj),
        handle_tool_calls env
            ({ id := id, name := "lookup_sales_data",
               arguments := RawArgs.obj [] } :: rest) msgs
          = .error (.typeError kwErrMsg)) :=
  ⟨fun _ _ _ _ _ => rfl, fun _ _ _ _ => rfl⟩

/-- Claim C4 (counterexample): an execution-time failure inside
`analyze_sales_data` (its chat call raising) is not caught anywhere and
propagates out of the dispatch step, crashing the interaction. -/
theorem C4_counterexample :
    run_agent envAnalyzeFails
        [{ content := none,
           tool_calls := [{ id := "c2", name := "analyze_sales_data",
                            arguments := RawArgs.obj [("data", "rows"), ("prompt", "trends")] }] }]
        (AgentInput.query "what trends do you see?")
      = .error (.apiError "boom") := rfl

/-- Claim C4 (amended): only `lookup_sales_data` converts its internal
failures into a textual result: a well-formed lookup call always
dispatches to a tool-result message, and when the body fails the message
text is the Error-accessing-data string; an execution-time failure
inside `analyze_sales_data` propagates out of `dispatch_one` unchanged. -/
theorem C4_amended :
    (∀ (env : ToolEnv) (id p : String),
        dispatch_one env { id := id, name := "lookup_sales_data",
                           arguments := RawArgs.obj [("prompt", p)] }
          = .ok (Msg.dict "tool" (lookup_sales_data env p) (some id))) ∧
    (∀ (env : ToolEnv) (p : String) (e : PyError), lookupBody env p = .error e →
        lookup_sales_data env p = "Error accessing data: " ++ pyErrMsg e) ∧
    (∀ (env : ToolEnv) (id p d : String) (e : PyError),
        env.analyzeLLM (DATA_ANALYSIS_PROMPT d p) = .error e →
        dispatch_one env { id := id, name := "analyze_sales_data",
                           arguments := RawArgs.obj [("data", d), ("prompt", p)] }
          = .error e) := by
  refine ⟨fun env id p => rfl, fun env p e h => ?_, fun env id p d e h => ?_⟩
  · unfold lookup_sales_data
    rw [h]
  · have h1 : dispatch_one env ⟨id, "analyze_sales_data", RawArgs.obj [("data", d), ("prompt", p)]⟩
        = (match analyze_sales_data env p d with
           | .error e2 => .error e2
           | .ok result => .ok (Msg.dict "tool" result (some id))) := rfl
    have h2 : analyze_sales_data env p d
        = (match env.analyzeLLM (DATA_ANALYSIS_PROMPT d p) with
           | .error e2 => .error e2
           | .ok (some a) => .ok (if a = "" then "No analysis could be generated" else a)
           | .ok none => .ok "No analysis could be generated") := rfl
    rw [h1, h2, h]

/-- Claim C4 (witness for the amended theorem): a failing DuckDB query
is absorbed by `lookup_sales_data` into a textual result, while a
failing analysis chat call escapes the dispatch as an exception. -/
theorem C4_witness :
    lookup_sales_data envLookupFails "totals by store"
        = "Error accessing data: Binder Error"
      ∧ dispatch_one envAnalyzeFails
          { id := "call_9", name := "analyze_sales_data",
            arguments := RawArgs.obj [("data", "rows"), ("prompt", "trends")] }
        = .error (.apiError "boom") :=
  ⟨C4_amended.2.1 envLookupFails "totals by store" (.apiError "Binder Error") rfl,
   C4_amended.2.2 envAnalyzeFails "call_9" "trends" "rows" (.apiError "boom") rfl⟩

/-- Claim C6: when the first engine response carries no tool calls, the
loop returns the content of that response after exactly one engine call,
with the response appended to the conversation. -/
theorem C6_theorem (env : ToolEnv) (rest : List AssistantMsg)
    (input : AgentInput) (resp : AssistantMsg) (h : resp.tool_calls = []) :
    run_agent env (resp :: rest) input
      = .ok (.answer resp.content,
             ensure_system (wrapInput input) ++ [Msg.assistant resp], 1) := by
  simp [run_agent, run_agent_loop, h]

/-- Claim C6 (witness): a concrete plain answer is returned after one
engine call. -/
theorem C6_witness :
    run_agent envOk
        [{ content := some "The top store is 1320.", tool_calls := [] }]
        (AgentInput.query "Which store sold most?")
      = .ok (.answer (some "The top store is 1320."),
             [Msg.dict "user" "Which store sold most?" none,
              Msg.dict "system" SYSTEM_PROMPT none,
              Msg.assistant { content := some "The top store is 1320.", tool_calls := [] }],
             1) :=
  C6_theorem envOk [] (AgentInput.query "Which store sold most?")
    { content := some "The top store is 1320.", tool_calls := [] } rfl

/-- Claim C9: a plain text query is wrapped as a single user message and
from then on `run_agent` behaves exactly as on the corresponding
one-message list. -/
theorem C9_theorem (env : ToolEnv) (script : List AssistantMsg) (s : String) :
    run_agent env script (AgentInput.query s)
      = run_agent env script (AgentInput.msgs [Msg.dict "user" s none]) := rfl

/-- Claim C10: when the structured-output call returns a content value
without the chart attributes (malformed or unusable configuration),
`extract_chart_config` does not fail: it returns the fixed default
configuration with the goal as title and the input data attached. -/
theorem C10_theorem (env : ToolEnv) (data goal : String) (content : ContentVal)
    (h1 : env.chartLLM (CHART_CONFIGURATION_PROMPT data goal) = .ok content)
    (h2 : ∀ c, content ≠ ContentVal.cfgVal c) :
    extract_chart_config env data goal
      = .ok { chart_type := "line", x_axis := "date", y_axis := "value",
              title := goal, data := data } := by
  unfold extract_chart_config
  rw [h1]
  cases content with
  | cfgVal c => exact absurd rfl (h2 c)
  | strVal s => rfl
  | noneVal => rfl

/-- Claim C10 (witness): the default configuration at a concrete
malformed content. -/
theorem C10_witness :
    extract_chart_config envChartMalformed "d1,d2" "sales over time"
      = .ok { chart_type := "line", x_axis := "date", y_axis := "value",
              title := "sales over time", data := "d1,d2" } :=
  C10_theorem envChartMalformed "d1,d2" "sales over time"
    (ContentVal.strVal "not a config") rfl (fun _ h => ContentVal.noConfusion h)

/-- On a script that requests a (valid) capability on every turn, the
loop consumes the whole script, one engine call per response, without
ever stopping or failing: the modelled fuel runs out with the loop still
going, for every fuel amount. -/
theorem run_agent_loop_always (n : Nat) : ∀ messages : List Msg,
    (run_agent_loop envOk (List.replicate n alwaysCallResp) messages).map
        (fun x => (x.1, x.2.2))
      = Except.ok (RunResult.outOfScript, n) := by
  induction n with
  | zero => intro messages; rfl
  | succ k ih =>
    intro messages
    have hstep : run_agent_loop envOk (List.replicate (k + 1) alwaysCallResp) messages
        = (match run_agent_loop envOk (List.replicate k alwaysCallResp)
              ((messages ++ [Msg.assistant alwaysCallResp])
                ++ [Msg.dict "tool" "rows for store 1320" (some "call_1")]) with
           | .error e => .error e
           | .ok (r, ms, m) => .ok (r, ms, m + 1)) := rfl
    rw [hstep]
    have h2 := ih ((messages ++ [Msg.assistant alwaysCallResp])
        ++ [Msg.dict "tool" "rows for store 1320" (some "call_1")])
    cases hres : run_agent_loop envOk (List.replicate k alwaysCallResp)
        ((messages ++ [Msg.assistant alwaysCallResp])
          ++ [Msg.dict "tool" "rows for store 1320" (some "call_1")]) with
    | error e => rw [hres] at h2; simp [Except.map] at h2
    | ok trip =>
      obtain ⟨r, ms, m⟩ := trip
      rw [hres] at h2
      simp [Except.map] at h2
      simp [Except.map, h2.1, h2.2]

/-- Claim C1 (counterexample): with an engine stub that requests a
capability on every turn, five turns leave `run_agent` still looping
with five engine calls made — it has no iteration-cap parameter at all
and there is no NonConvergence outcome in its behaviour. -/
theorem C1_counterexample :
    (run_agent envOk (List.replicate 5 alwaysCallResp)
        (AgentInput.query "Which stores sold the most?")).map (fun x => (x.1, x.2.2))
      = Except.ok (RunResult.outOfScript, 5) := rfl

/-- Claim C1 (amended): `run_agent` enforces no maximum number of
re-entries: for every n, an engine that returns a capability request on
every one of n turns keeps the loop running through all n engine calls,
and the loop never fails with NonConvergence (its `while True` has no
such exit). -/
theorem C1_amended (n : Nat) :
    (run_agent envOk (List.replicate n alwaysCallResp)
        (AgentInput.query "Show me sales by store")).map (fun x => (x.1, x.2.2))
      = Except.ok (RunResult.outOfScript, n) :=
  run_agent_loop_always n _

/-- Successful dispatch only ever appends: the input message list is a
prefix of the output of `handle_tool_calls`. -/
theorem handle_tool_calls_grows (env : ToolEnv) (tcs : List ToolCallObj) :
    ∀ msgs msgs2 : List Msg,
      handle_tool_calls env tcs msgs = .ok msgs2 → msgs <+: msgs2 := by
  induction tcs with
  | nil =>
    intro msgs msgs2 h
    simp [handle_tool_calls] at h
    rw [h]
  | cons tc rest ih =>
    intro msgs msgs2 h
    have heq : handle_tool_calls env (tc :: rest) msgs
        = (match dispatch_one env tc with
           | .error e => .error e
           | .ok m => handle_tool_calls env rest (msgs ++ [m])) := rfl
    rw [heq] at h
    cases hd : dispatch_one env tc with
    | error e => rw [hd] at h; cases h
    | ok m =>
      rw [hd] at h
      exact (List.prefix_append msgs [m]).trans (ih (msgs ++ [m]) msgs2 h)

/-- A terminating run of the router loop only ever appends: the message
list it starts from is a prefix of the final message list. -/
theorem run_agent_loop_grows (env : ToolEnv) (script : List AssistantMsg) :
    ∀ (msgs : List Msg) (r : RunResult) (msgs2 : List Msg) (n : Nat),
      run_agent_loop env script msgs = .ok (r, msgs2, n) → msgs <+: msgs2 := by
  induction script with
  | nil =>
    intro msgs r msgs2 n h
    simp [run_agent_loop] at h
    rw [h.2.1]
  | cons resp rest ih =>
    intro msgs r msgs2 n h
    have heq : run_agent_loop env (resp :: rest) msgs
        = (if resp.tool_calls.isEmpty then
            Except.ok (RunResult.answer resp.content, msgs ++ [Msg.assistant resp], 1)
          else
            match handle_tool_calls env resp.tool_calls (msgs ++ [Msg.assistant resp]) with
            | .error e => .error e
            | .ok messages3 =>
              match run_agent_loop env rest messages3 with
              | .error e => .error e
              | .ok (r2, ms, m) => .ok (r2, ms, m + 1)) := rfl
    rw [heq] at h
    by_cases hc : resp.tool_calls.isEmpty
    · rw [if_pos hc] at h
      simp at h
      rw [← h.2.1]
      exact List.prefix_append msgs _
    · rw [if_neg hc] at h
      cases hh : handle_tool_calls env resp.tool_calls (msgs ++ [Msg.assistant resp]) with
      | error e => rw [hh] at h; cases h
      | ok messages3 =>
        rw [hh] at h
        replace h : (match run_agent_loop env rest messages3 with
            | Except.error e => Except.error e
            | Except.ok (r2, ms, m) => Except.ok (r2, ms, m + 1))
          = Except.ok (r, msgs2, n) := h
        cases hr : run_agent_loop env rest messages3 with
        | error e => rw [hr] at h; cases h
        | ok trip =>
          obtain ⟨r2, ms, m⟩ := trip
          rw [hr] at h
          simp at h
          have p1 := List.prefix_append msgs [Msg.assistant resp]
          have p2 := handle_tool_calls_grows env resp.tool_calls _ _ hh
          have p3 := ih messages3 r2 ms m hr
          rw [← h.2.1]
          exact (p1.trans p2).trans p3

/-- Claim C5: the conversation is append-only: whenever the dispatcher
or a terminating run of the router loop turns a message list into a new
one, the old list is a prefix of the new one (so no message is removed,
reordered or changed) and the length grows monotonically. -/
theorem C5_theorem :
    (∀ (env : ToolEnv) (tcs : List ToolCallObj) (msgs msgs2 : List Msg),
        handle_tool_calls env tcs msgs = .ok msgs2 →
          msgs <+: msgs2 ∧ msgs.length ≤ msgs2.length) ∧
    (∀ (env : ToolEnv) (script : List AssistantMsg) (msgs : List Msg)
        (r : RunResult) (msgs2 : List Msg) (n : Nat),
        run_agent_loop env script msgs = .ok (r, msgs2, n) →
          msgs <+: msgs2 ∧ msgs.length ≤ msgs2.length) :=
  ⟨fun env tcs msgs msgs2 h =>
      ⟨handle_tool_calls_grows env tcs msgs msgs2 h,
       (handle_tool_calls_grows env tcs msgs msgs2 h).length_le⟩,
   fun env script msgs r msgs2 n h =>
      ⟨run_agent_loop_grows env script msgs r msgs2 n h,
       (run_agent_loop_grows env script msgs r msgs2 n h).length_le⟩⟩

/-- Claim C5 (witness): a concrete dispatch appends one tool message
after the user message and keeps the old list as a prefix. -/
theorem C5_witness :
    ([Msg.dict "user" "q" none] <+:
        [Msg.dict "user" "q" none, Msg.dict "tool" "rows for store 1320" (some "call_1")])
      ∧ [Msg.dict "user" "q" none].length
          ≤ [Msg.dict "user" "q" none,
             Msg.dict "tool" "rows for store 1320" (some "call_1")].length :=
  C5_theorem.1 envOk [lookupTc] [Msg.dict "user" "q" none]
    [Msg.dict "user" "q" none, Msg.dict "tool" "rows for store 1320" (some "call_1")] rfl

/-- A successful dispatch of one tool call produces a tool-role dict
message tagged with the identifier of that call. -/
theorem dispatch_one_shape (env : ToolEnv) (tc : ToolCallObj) (m : Msg)
    (h : dispatch_one env tc = Except.ok m) :
    ∃ c, m = Msg.dict "tool" c (some tc.id) := by
  unfold dispatch_one at h
  cases h1 : lookupTool tc.name with
  | error e => rw [h1] at h; cases h
  | ok impl =>
    rw [h1] at h
    cases h2 : json_loads tc.arguments with
    | error e => rw [h2] at h; cases h
    | ok kwargs =>
      rw [h2] at h
      replace h : (match callTool env impl kwargs with
          | Except.error e => Except.error e
          | Except.ok result => Except.ok (Msg.dict "tool" result (some tc.id)))
        = Except.ok m := h
      cases h3 : callTool env impl kwargs with
      | error e => rw [h3] at h; cases h
      | ok result =>
        rw [h3] at h
        injection h with h4
        exact ⟨result, h4.symm⟩

/-- Claim C7: when every tool call of one engine turn dispatches
successfully, the result messages are appended after the existing
conversation in exactly the order of the requests, each a tool-role
message tagged with the identifier of its request. -/
theorem C7_theorem (env : ToolEnv) (tcs : List ToolCallObj) (msgs : List Msg)
    (h : ∀ tc ∈ tcs, ∃ m, dispatch_one env tc = Except.ok m) :
    ∃ results : List Msg,
      handle_tool_calls env tcs msgs = .ok (msgs ++ results)
        ∧ results.map msgTag = tcs.map (fun tc => some tc.id)
        ∧ ∀ m ∈ results, msgRole m = "tool" := by
  revert h
  induction tcs generalizing msgs with
  | nil =>
    intro h
    exact ⟨[], by simp [handle_tool_calls], by simp, by simp⟩
  | cons tc rest ih =>
    intro h
    obtain ⟨m, hm⟩ := h tc (List.mem_cons_self tc rest)
    obtain ⟨c, hc⟩ := dispatch_one_shape env tc m hm
    obtain ⟨results, h1, h2, h3⟩ :=
      ih (msgs ++ [m]) (fun tc2 htc2 => h tc2 (List.mem_cons_of_mem tc htc2))
    refine ⟨m :: results, ?_, ?_, ?_⟩
    · have heq : handle_tool_calls env (tc :: rest) msgs
          = (match dispatch_one env tc with
             | .error e => .error e
             | .ok m2 => handle_tool_calls env rest (msgs ++ [m2])) := rfl
      rw [heq, hm]
      show handle_tool_calls env rest (msgs ++ [m]) = Except.ok (msgs ++ m :: results)
      rw [h1]
      simp
    · simp [hc, msgTag, h2]
    · intro m2 hm2
      cases hm2 with
      | head => rw [hc]; rfl
      | tail _ hm3 => exact h3 m2 hm3

/-- Claim C7 (witness): two requests in one turn yield two tool-result
messages in the same order, tagged with the two request identifiers. -/
theorem C7_witness :
    ∃ results : List Msg,
      handle_tool_calls envOk [lookupTc, analyzeTc] [Msg.dict "user" "q" none]
          = .ok ([Msg.dict "user" "q" none] ++ results)
        ∧ results.map msgTag = [some "call_1", some "call_2"]
        ∧ ∀ m ∈ results, msgRole m = "tool" :=
  C7_theorem envOk [lookupTc, analyzeTc] [Msg.dict "user" "q" none]
    (by
      intro tc htc
      cases htc with
      | head => exact ⟨Msg.dict "tool" "rows for store 1320" (some "call_1"), rfl⟩
      | tail _ h2 =>
        cases h2 with
        | head => exact ⟨Msg.dict "tool" "analysis text" (some "call_2"), rfl⟩
        | tail _ h3 => cases h3)

/-- Claim C8 (counterexample): applied twice to a list that already
holds two system messages, the system-prompt step leaves both, so the
result does not contain exactly one system message. -/
theorem C8_counterexample :
    countSystemMsgs (ensure_system (ensure_system
        [Msg.dict "system" "a" none, Msg.dict "system" "b" none])) ≠ 1 := by
  decide

/-- Claim C8 (amended): the system-prompt step is idempotent and appends
a system message only when none is present; starting from a list with no
system message, applying it once (hence any number of times) yields
exactly one system message.  A list that already holds several system
messages keeps them all. -/
theorem C8_amended :
    (∀ messages, ensure_system (ensure_system messages) = ensure_system messages) ∧
    (∀ messages, hasSystemMsg messages = true → ensure_system messages = messages) ∧
    (∀ messages, hasSystemMsg messages = false →
        countSystemMsgs (ensure_system messages) = 1) := by
  refine ⟨?_, ?_, ?_⟩
  · intro messages
    by_cases h : hasSystemMsg messages
    · simp [ensure_system, h]
    · have h2 : hasSystemMsg (messages ++ [Msg.dict "system" SYSTEM_PROMPT none]) = true := by
        simp [hasSystemMsg, List.any_append, isSystem]
      simp [ensure_system, h, h2]
  · intro messages h
    simp [ensure_system, h]
  · intro messages h
    have hfil : messages.filter isSystem = [] := by
      rw [List.filter_eq_nil_iff]
      intro a ha
      exact List.any_eq_false.mp h a ha
    have hone : ensure_system messages
        = messages ++ [Msg.dict "system" SYSTEM_PROMPT none] := by
      simp [ensure_system, h]
    rw [hone]
    simp [countSystemMsgs, List.filter_append, hfil, isSystem]

/-- Claim C8 (witness for the amended theorem) on a one-user-message
list. -/
theorem C8_witness :
    ensure_system (ensure_system [Msg.dict "user" "hi" none])
        = ensure_system [Msg.dict "user" "hi" none]
      ∧ countSystemMsgs (ensure_system [Msg.dict "user" "hi" none]) = 1 :=
  ⟨C8_amended.1 [Msg.dict "user" "hi" none],
   C8_amended.2.2 [Msg.dict "user" "hi" none] rfl⟩

end DataAgent
